import Mathlib

/-!
Verification development for the AskUenr backend (askuenr/views.py and
askuenr/models/chat.py): a shallow embedding of the Q&A retrieval engine —
question classifier, the three retrieval strategies, the Gemini fallback
client, knowledge-store initialization and the POST orchestrator — together
with theorems about the embedded definitions.

Strings are modelled as Lean `String`/`List Char` (Python strings are
sequences of code points; all texts involved are ASCII). Python `None` and
absent dictionary keys are modelled with `Option`; Python truthiness of an
optional string (None or "" falsy) is `optTruthy`.
-/

/-- ASCII letter, the characters matched by the regex classes [A-Za-z]
(and, under re.IGNORECASE, by [A-Z] or [a-z]). -/
def isAlphaAscii (c : Char) : Bool :=
  ('a' ≤ c && c ≤ 'z') || ('A' ≤ c && c ≤ 'Z')

/-- ASCII lowercase letter, the regex class [a-z] without IGNORECASE. -/
def isLowerAlpha (c : Char) : Bool :=
  'a' ≤ c && c ≤ 'z'

/-- Whitespace as matched by the regex class \s (ASCII part). -/
def isSpacePy (c : Char) : Bool :=
  c == ' ' || c == '\t' || c == '\n' || c == '\r' || c == '\x0b' || c == '\x0c'

/-- Word character of the regex class \w (ASCII part): letter, digit or
underscore; used for the \b boundaries of the keyword regex. -/
def isWordChar (c : Char) : Bool :=
  isAlphaAscii c || c.isDigit || c == '_'

/-- Python str.lower() on a code-point list (ASCII). -/
def pyLower (s : List Char) : List Char :=
  s.map Char.toLower

/-- Python str.title() walk: a letter after a non-letter is uppercased, a
letter after a letter is lowercased; the flag carries whether the previous
character was a letter. -/
def pyTitleAux : Bool → List Char → List Char
  | _, [] => []
  | prevAlpha, c :: cs =>
    if isAlphaAscii c then
      (if prevAlpha then c.toLower else c.toUpper) :: pyTitleAux true cs
    else
      c :: pyTitleAux false cs

/-- Python str.title() (ASCII). -/
def pyTitle (s : List Char) : List Char :=
  pyTitleAux false s

/-- Python str.strip(): remove leading and trailing whitespace. -/
def pyStrip (s : String) : String :=
  String.mk (((s.data.dropWhile isSpacePy).reverse.dropWhile isSpacePy).reverse)

/-- Python slicing s[:n] on a string of code points. -/
def pyTake (n : Nat) (s : String) : String :=
  String.mk (s.data.take n)

/-- needle is a prefix of hay (code-point lists). -/
def isPrefixCL : List Char → List Char → Bool
  | [], _ => true
  | _ :: _, [] => false
  | a :: as, b :: bs => a == b && isPrefixCL as bs

/-- Python `needle in hay` for strings: substring containment. -/
def isInfixCL (needle : List Char) : List Char → Bool
  | [] => needle.isEmpty
  | b :: bs => isPrefixCL needle (b :: bs) || isInfixCL needle bs

/-- `containsSub hay needle`: the Python test `needle in hay` with the hay
given as a code-point list and the needle as a string literal. -/
def containsSub (hay : List Char) (needle : String) : Bool :=
  isInfixCL needle.data hay

/-- `any(word in q_lower for word in kws)`: some keyword of the list occurs
as a substring of the text. -/
def anyKw (q : List Char) (kws : List String) : Bool :=
  kws.any (fun k => containsSub q k)

/-- Maximal runs of \w characters of the text, in order; the accumulator
holds the current run reversed. Models how `\b...\b` can only match whole
maximal word-character runs. -/
def tokenizeAux : List Char → List Char → List (List Char)
  | [], acc => if acc.isEmpty then [] else [acc.reverse]
  | c :: cs, acc =>
    if isWordChar c then tokenizeAux cs (c :: acc)
    else if acc.isEmpty then tokenizeAux cs []
    else acc.reverse :: tokenizeAux cs []

/-- `re.findall(r'\b[a-z]{3,}\b', q_lower)`: the maximal word-character runs
that consist only of a-z and have length at least 3, in order of first
appearance, duplicates preserved. -/
def keywordsOf (ql : List Char) : List String :=
  (tokenizeAux ql []).filterMap (fun t =>
    if 3 ≤ t.length then
      if t.all isLowerAlpha then some (String.mk t) else none
    else none)

/-- One attempt of the second name pattern `([A-Z][a-z]+)\s+([A-Z][a-z]+)`
(compiled with re.IGNORECASE, so each class matches any ASCII letter) at the
head of the text: group 1 is the maximal letter run here (length ≥ 2, since
the class pair needs one letter plus at least one more), then at least one
whitespace, then a second maximal letter run of length ≥ 2. Greedy
quantifiers cannot backtrack usefully here because a letter never satisfies
\s and whitespace never satisfies a letter class. -/
def tryMatchB (s : List Char) : Option (List Char × List Char) :=
  let g1 := s.takeWhile isAlphaAscii
  if g1.length < 2 then none
  else
    let r1 := s.dropWhile isAlphaAscii
    if (r1.takeWhile isSpacePy).isEmpty then none
    else
      let g2 := (r1.dropWhile isSpacePy).takeWhile isAlphaAscii
      if g2.length < 2 then none else some (g1, g2)

/-- Leftmost match of the second name pattern: try every start position from
the left, as the regex engine does. -/
def matchB : List Char → Option (List Char × List Char)
  | [] => none
  | c :: cs =>
    match tryMatchB (c :: cs) with
    | some r => some r
    | none => matchB cs

/-- Case-insensitive comparison of the text's head against a title literal. -/
def ciPrefixAt : List Char → List Char → Bool
  | [], _ => true
  | _ :: _, [] => false
  | a :: as, b :: bs => b.toLower == a && ciPrefixAt as bs

/-- Match one title alternative (`prof\.?` etc.) at the head of the text:
the title case-insensitively, then an optional dot (taken greedily; leaving
a present dot unconsumed can never help since \s does not match a dot).
Returns the matched text from the original string and the remainder. -/
def tryTitleAt (t : List Char) (s : List Char) : Option (List Char × List Char) :=
  if ciPrefixAt t s then
    let g := s.take t.length
    let r := s.drop t.length
    match r with
    | '.' :: r2 => some (g ++ ['.'], r2)
    | _ => some (g, r)
  else none

/-- The tail `\s+([a-z]+)\s+([a-z]+)` of the first name pattern under
IGNORECASE: whitespace, a letter run, whitespace, a letter run (each run
maximal, greediness deterministic as in `tryMatchB`). -/
def restTwoWords (r : List Char) : Option (List Char × List Char) :=
  if (r.takeWhile isSpacePy).isEmpty then none
  else
    let r1 := r.dropWhile isSpacePy
    let g2 := r1.takeWhile isAlphaAscii
    if g2.isEmpty then none
    else
      let r2 := r1.dropWhile isAlphaAscii
      if (r2.takeWhile isSpacePy).isEmpty then none
      else
        let g3 := (r2.dropWhile isSpacePy).takeWhile isAlphaAscii
        if g3.isEmpty then none else some (g2, g3)

/-- The title alternatives of the first name pattern, in the regex's
alternation order: prof, dr, mr, mrs, ms. -/
def titlesA : List (List Char) :=
  [['p','r','o','f'], ['d','r'], ['m','r'], ['m','r','s'], ['m','s']]

/-- One attempt of the first name pattern
`(prof\.?|dr\.?|mr\.?|mrs\.?|ms\.?)\s+([a-z]+)\s+([a-z]+)` (IGNORECASE) at
the head of the text: the alternation backtracks through the titles in
order, the first alternative that lets the whole pattern complete wins. -/
def tryMatchA (s : List Char) : Option (List Char × List Char × List Char) :=
  (titlesA.filterMap (fun t =>
    match tryTitleAt t s with
    | some (g1, r) => (restTwoWords r).map (fun p => (g1, p.1, p.2))
    | none => none)).head?

/-- Leftmost match of the first name pattern. -/
def matchA : List Char → Option (List Char × List Char × List Char)
  | [] => none
  | c :: cs =>
    match tryMatchA (c :: cs) with
    | some r => some r
    | none => matchA cs

/-- Python truthiness of an optional string: None and "" are falsy. -/
def optTruthy : Option String → Bool
  | none => false
  | some s => s != ""

/-- A Python f-string interpolation of a possibly-None value: None prints
as "None". -/
def fmtOpt : Option String → String
  | none => "None"
  | some s => s

/-- Intent Descriptor: the analysis dictionary built by
`AskUnerAPIView._understand_question` (views.py, lines 63-146). -/
structure Analysis where
  type : String
  target_person : Option String
  target_department : Option String
  target_program : Option String
  target_topic : Option String
  keywords : List String
  is_uenr_related : Bool
deriving Repr, DecidableEq

/-- The person keyword list of the classifier (views.py line 83). -/
def person_keywords : List String :=
  ["who", "prof", "dr", "mr", "mrs", "ms", "director", "dean", "head", "vc",
   "vice-chancellor"]

/-- The name-extraction loop over the two patterns (views.py lines 88-101).
The loop body assigns target_person from a pattern's first match and then
`break`s, but the break leaves only the inner loop over the matches: the
outer loop goes on to the second pattern, whose first match overwrites the
first pattern's. Effect: pattern (b) if it matches anywhere, else pattern
(a) if it matches anywhere, else nothing; the winning match's groups are
space-joined and passed through .title(). -/
def extractName (orig : List Char) : Option String :=
  let afterA : Option String :=
    (matchA orig).map (fun g =>
      String.mk (pyTitle (g.1 ++ ' ' :: (g.2.1 ++ ' ' :: g.2.2))))
  match matchB orig with
  | some (g1, g2) => some (String.mk (pyTitle (g1 ++ ' ' :: g2)))
  | none => afterA

/-- The role-inference fallback for person queries (views.py lines 104-110),
reached only when name extraction produced nothing. -/
def roleInference (ql : List Char) : Option String :=
  if containsSub ql "vice-chancellor" || containsSub ql "vc" then
    some "Vice-Chancellor"
  else if containsSub ql "head" && containsSub ql "department" then
    some "Head of Department"
  else if containsSub ql "dean" then some "Dean"
  else none

/-- target_person of a person query: the extracted name when truthy, else
role inference (views.py lines 87-110). -/
def personTarget (orig ql : List Char) : Option String :=
  let extracted := extractName orig
  if optTruthy extracted then extracted else roleInference ql

/-- target_department of a department query (views.py lines 115-122). -/
def departmentTarget (ql : List Char) : Option String :=
  if containsSub ql "it" || containsSub ql "information technology" then
    some "it"
  else if containsSub ql "computer science" then some "computer science"
  else if containsSub ql "engineering" then some "engineering"
  else if containsSub ql "science" then some "sciences"
  else none

/-- target_program of an academic query (views.py lines 127-132). -/
def programTarget (ql : List Char) : Option String :=
  if containsSub ql "it" || containsSub ql "information technology" then
    some "information technology"
  else if containsSub ql "computer science" then some "computer science"
  else if containsSub ql "engineering" then some "engineering"
  else none

/-- The analysis dictionary as initialized plus the `type` set by one of the
keyword-only branches (admission, grading, financial, registration,
facility, or the untouched default "general"). -/
def topicAnalysis (ty : String) (ql : List Char) : Analysis :=
  { type := ty
    target_person := none
    target_department := none
    target_program := none
    target_topic := none
    keywords := keywordsOf ql
    is_uenr_related := true }

@[simp] theorem topicAnalysis_type (ty : String) (ql : List Char) :
    (topicAnalysis ty ql).type = ty := rfl

/-- `AskUnerAPIView._understand_question` (views.py lines 63-146): lower the
text, extract keywords, then run the ordered first-match-wins rule chain of
substring tests over the lowered text. -/
def understand_question (question : String) : Analysis :=
  let ql := pyLower question.data
  if anyKw ql person_keywords then
    { topicAnalysis "person_query" ql with
        target_person := personTarget question.data ql }
  else if anyKw ql ["department", "school", "faculty"] then
    { topicAnalysis "department_query" ql with
        target_department := departmentTarget ql }
  else if anyKw ql ["course", "program", "degree", "study", "bsc", "diploma"] then
    { topicAnalysis "academic_query" ql with
        target_program := programTarget ql }
  else if anyKw ql ["admission", "apply", "requirement"] then
    topicAnalysis "admission_query" ql
  else if anyKw ql ["grade", "gpa", "score", "mark"] then
    topicAnalysis "grading_query" ql
  else if anyKw ql ["fee", "cost", "payment", "tuition"] then
    topicAnalysis "financial_query" ql
  else if anyKw ql ["register", "registration"] then
    topicAnalysis "registration_query" ql
  else if anyKw ql ["library", "hostel", "campus", "facility"] then
    topicAnalysis "facility_query" ql
  else
    topicAnalysis "general" ql

/-- A staff record of staffs.json as read by the staff-directory strategy:
a JSON object with these optional keys. `eduQual` stands for the key
"Education & Qualifications" and `careerExp` for
"Career / Work Experience / Research Interests". An achievements key that
is absent and one that holds an empty list behave identically in the code
(both falsy), so both are the empty list here. -/
structure Staff where
  name : Option String
  current_position : Option String
  role : Option String
  department : Option String
  eduQual : Option String
  careerExp : Option String
  achievements : List String
deriving Repr, DecidableEq

/-- Python truthiness `not staff` for a staff record: an empty JSON object
(no keys at all) is the only falsy record under this field layout. -/
def staffFalsy (st : Staff) : Bool :=
  st.name.isNone && st.current_position.isNone && st.role.isNone &&
  st.department.isNone && st.eduQual.isNone && st.careerExp.isNone &&
  st.achievements.isEmpty

/-- `AskUnerAPIView._format_staff_response` (views.py lines 191-217). -/
def format_staff_response (st : Staff) : Option String :=
  if staffFalsy st then none
  else
    let r0 := fmtOpt st.name ++ " is the " ++ fmtOpt st.current_position ++
      " at UENR. "
    let r1 := if optTruthy st.role then
        r0 ++ "Their role involves " ++ fmtOpt st.role ++ ". " else r0
    let r2 := if optTruthy st.department then
        r1 ++ "They work in the " ++ fmtOpt st.department ++ ". " else r1
    let r3 := if optTruthy st.eduQual && st.eduQual != some "unknown" then
        r2 ++ "Qualifications: " ++ fmtOpt st.eduQual ++ ". " else r2
    let r4 := if optTruthy st.careerExp && st.careerExp != some "unknown" then
        r3 ++ "Expertise: " ++ fmtOpt st.careerExp ++ ". " else r3
    let r5 := match st.achievements with
      | [] => r4
      | a :: rest =>
        r4 ++ "Notable achievements include: " ++ a ++
          (if rest.length > 0 then
            ", and " ++ toString rest.length ++ " more." else "")
    some r5

/-- The target-person loop of `_search_staff_info` (views.py lines 159-163):
first staff record whose lowered name contains the lowered target as a
substring. -/
def findStaffByName (target : String) : List Staff → Option Staff
  | [] => none
  | st :: rest =>
    if containsSub (pyLower (st.name.getD "").data)
        (String.mk (pyLower target.data)) then some st
    else findStaffByName target rest

/-- The match score of one staff record (views.py lines 166-179): the number
of keywords found as substrings of the lowered name, current_position, role
or department; each occurrence of a duplicated keyword counts. -/
def staff_match_score (keywords : List String) (st : Staff) : Nat :=
  keywords.foldl (fun acc kw =>
    if containsSub (pyLower (st.name.getD "").data) kw ||
       containsSub (pyLower (st.current_position.getD "").data) kw ||
       containsSub (pyLower (st.role.getD "").data) kw ||
       containsSub (pyLower (st.department.getD "").data) kw
    then acc + 1 else acc) 0

/-- Insertion step of a stable descending sort on the score: a later element
passes an earlier one only when strictly greater, as Python's stable
`list.sort(key=..., reverse=True)` orders them. -/
def insertDesc (x : Staff × Nat) : List (Staff × Nat) → List (Staff × Nat)
  | [] => [x]
  | y :: ys => if x.2 > y.2 then x :: y :: ys else y :: insertDesc x ys

/-- Stable descending sort by score, modelling
`matches.sort(key=lambda x: x[1], reverse=True)` (views.py line 186). -/
def sortDesc (l : List (Staff × Nat)) : List (Staff × Nat) :=
  l.foldl (fun acc x => insertDesc x acc) []

/-- `AskUnerAPIView._search_staff_info` (views.py lines 149-189). When the
data list is falsy (empty) the strategy yields nothing. When target_person
is truthy and some record's name contains it, the first such record is
formatted and returned. Otherwise (target falsy, or no name contained it)
every record is scored against the keywords, records with score 0 are
dropped, the rest are stably sorted by descending score and the head is
formatted; with no scoring record the strategy yields nothing. -/
def search_staff_info (staff_data : List Staff) (a : Analysis) : Option String :=
  if staff_data.isEmpty then none
  else
    match (if optTruthy a.target_person then
        findStaffByName (a.target_person.getD "") staff_data else none) with
    | some st => format_staff_response st
    | none =>
      let scored := staff_data.map (fun st => (st, staff_match_score a.keywords st))
      let matchList := scored.filter (fun p => decide (0 < p.2))
      match sortDesc matchList with
      | [] => none
      | (st, _) :: _ => format_staff_response st

/-- The head_of_department sub-object of it_department_info.json; an absent
key or an empty object are both falsy and modelled by `none` at the use
site. -/
structure HodInfo where
  name : Option String
  position : Option String
  school : Option String
deriving Repr, DecidableEq

/-- One entry of the department's staff sub-list. -/
structure DeptStaff where
  name : Option String
  position : Option String
deriving Repr, DecidableEq

/-- One entry of the department's programs sub-list. -/
structure DeptProgram where
  degree : Option String
  name : Option String
  mode : Option String
deriving Repr, DecidableEq

/-- The "department" object of it_department_info.json. List-valued keys
that are absent behave like empty lists at every use site (falsy), so both
are the empty list here. -/
structure DeptInfo where
  name : Option String
  school : Option String
  location : Option String
  staff : List DeptStaff
  head_of_department : Option HodInfo
  courses_offered : List String
  programs : List DeptProgram
deriving Repr, DecidableEq

/-- The loop of the IT-department person branch (views.py lines 265-268):
first staff entry of the department whose lowered name contains the lowered
target. -/
def findDeptStaff (target : String) : List DeptStaff → Option DeptStaff
  | [] => none
  | st :: rest =>
    if containsSub (pyLower (st.name.getD "").data)
        (String.mk (pyLower target.data)) then some st
    else findDeptStaff target rest

/-- `AskUnerAPIView._search_it_department_info` (views.py lines 219-270).
The argument is `none` when it_dept_data is falsy or has no "department"
key; otherwise the branches build `response`, and an empty response comes
back as no answer. -/
def search_it_department_info (it_dept_data : Option DeptInfo) (a : Analysis) :
    Option String :=
  match it_dept_data with
  | none => none
  | some dept_info =>
    let response : String :=
      if a.type == "department_query" then
        let r0 := "The " ++ fmtOpt dept_info.name ++ " is part of the " ++
          fmtOpt dept_info.school ++ " at UENR. "
        let r1 := if optTruthy dept_info.location then
            r0 ++ "It is located in " ++ fmtOpt dept_info.location ++ ". "
          else r0
        if !dept_info.staff.isEmpty then
          r1 ++ "The department has " ++ toString dept_info.staff.length ++
            " staff members. "
        else r1
      else if a.type == "person_query" &&
          (a.keywords.contains "head" || a.keywords.contains "hod") then
        match dept_info.head_of_department with
        | some hod =>
          "The Head of the " ++ fmtOpt dept_info.name ++ " is " ++
            fmtOpt hod.name ++ ". " ++ "They serve as " ++
            fmtOpt hod.position ++ " in the " ++ fmtOpt hod.school ++ "."
        | none => ""
      else if a.type == "academic_query" && a.keywords.contains "course" then
        if !dept_info.courses_offered.isEmpty then
          let courses := dept_info.courses_offered
          let r := "The " ++ fmtOpt dept_info.name ++
            " offers courses including: " ++
            String.intercalate ", " (courses.take 5)
          if courses.length > 5 then
            r ++ ", and " ++ toString (courses.length - 5) ++ " more courses."
          else r
        else ""
      else if a.type == "academic_query" && a.keywords.contains "program" then
        if !dept_info.programs.isEmpty then
          "The department offers: " ++
            String.intercalate ", " (dept_info.programs.map (fun p =>
              fmtOpt p.degree ++ " in " ++ fmtOpt p.name ++ " (" ++
                fmtOpt p.mode ++ ")")) ++ "."
        else ""
      else if a.type == "person_query" && !dept_info.staff.isEmpty then
        match (if optTruthy a.target_person then
            findDeptStaff (a.target_person.getD "") dept_info.staff
          else none) with
        | some st =>
          fmtOpt st.name ++ " is a " ++ fmtOpt st.position ++ " in the " ++
            fmtOpt dept_info.name ++ "."
        | none => ""
      else ""
    if response == "" then none else some response

/-- One grade band of the guide's Grading_System.Grades list; the three keys
are read with a None default and interpolated into an f-string. -/
structure GradeInfo where
  grade : Option String
  mark : Option String
  interpretation : Option String
deriving Repr, DecidableEq

/-- uenr_academic_and_student_guide.json as read by the academic-guide
strategy. Dict-valued sub-sections are flattened to the fields the code
reads; string fields use "" for an absent or empty (falsy) value and list
fields use [], since the code only ever tests their truthiness and then
uses the value. `programmes_offered` keeps the JSON object's key order. -/
structure GuideData where
  programmes_offered : List (String × List String)
  grades : List GradeInfo
  steps_to_register : List String
  overview : String
  vision : String
  mission : String
  main_campus : String
  satellite_campuses : List String
deriving Repr, DecidableEq

/-- Python str.replace on underscores: `school.replace('_', ' ')`. -/
def replUnderscore (s : String) : String :=
  String.mk (s.data.map (fun c => if c == '_' then ' ' else c))

/-- The school loop of the programs branch (views.py lines 287-293): first
school whose lowered key contains the target as a substring. -/
def findSchool (target : String) :
    List (String × List String) → Option (String × List String)
  | [] => none
  | p :: rest =>
    if containsSub (pyLower p.1.data) target then some p
    else findSchool target rest

/-- The format of one grade band (views.py line 311). -/
def fmtGrade (gi : GradeInfo) : String :=
  fmtOpt gi.grade ++ " (" ++ fmtOpt gi.mark ++ ") - " ++
    fmtOpt gi.interpretation

/-- `AskUnerAPIView._search_academic_info` (views.py lines 272-346). The
argument is `none` when guide_data is falsy (load failure or empty
document). -/
def search_academic_info (guide_data : Option GuideData) (a : Analysis) :
    Option String :=
  match guide_data with
  | none => none
  | some g =>
    if a.type == "academic_query" && a.keywords.contains "program" then
      let target_dept := if optTruthy a.target_department then
          a.target_department else a.target_program
      let response :=
        if optTruthy target_dept then
          match findSchool (target_dept.getD "") g.programmes_offered with
          | some (school, program_list) =>
            let r := replUnderscore school ++ " offers: " ++
              String.intercalate ", " (program_list.take 5)
            if program_list.length > 5 then
              r ++ ", and " ++ toString (program_list.length - 5) ++
                " more programs."
            else r
          | none => ""
        else
          "UENR offers programs through these schools: " ++
            String.intercalate ", "
              (g.programmes_offered.map (fun p => replUnderscore p.1)) ++ "."
      if response == "" then none else some response
    else if a.type == "grading_query" then
      if !g.grades.isEmpty then
        some ("UENR uses the following grading system: " ++
          String.intercalate "; " ((g.grades.map fmtGrade).take 3) ++ ".")
      else none
    else if a.type == "registration_query" then
      if !g.steps_to_register.isEmpty then
        some ("To register for courses at UENR: " ++
          String.intercalate " " (g.steps_to_register.take 2) ++
          " For complete details, check the student guide.")
      else none
    else if a.type == "general" ||
        (a.keywords.contains "uenr" || a.keywords.contains "university") then
      let r0 := if g.overview != "" then g.overview ++ " " else ""
      let r1 := if g.vision != "" then
          r0 ++ "The university's vision is: " ++ g.vision ++ " " else r0
      let r2 := if g.mission != "" then
          r1 ++ "Its mission is: " ++ g.mission else r1
      if r2 == "" then none else some r2
    else if a.keywords.contains "location" || a.keywords.contains "campus" then
      let r0 := if g.main_campus != "" then
          "UENR's main campus is located in " ++ g.main_campus ++ ". " else ""
      let r1 := if !g.satellite_campuses.isEmpty then
          r0 ++ "It also has satellite campuses in " ++
            String.intercalate ", " g.satellite_campuses ++ "."
        else r0
      if r1 == "" then none else some r1
    else none

/-- `AskUnerAPIView.MIN_RESPONSE_LENGTH` (views.py line 34). -/
def MIN_RESPONSE_LENGTH : Nat := 50

/-- `AskUnerAPIView.MAX_RESPONSE_LENGTH` (views.py line 35). -/
def MAX_RESPONSE_LENGTH : Nat := 1500

/-- One element of a candidate's content.parts; `text = none` models a part
without a "text" key. -/
structure GeminiPart where
  text : Option String
deriving Repr, DecidableEq

/-- One element of the response's candidate list; an absent "content" or
"parts" key yields the empty parts list (the code defaults both). -/
structure GeminiCandidate where
  parts : List GeminiPart
deriving Repr, DecidableEq

/-- What the Gemini HTTP exchange produced before validation:
`transportError` covers a network failure, a non-2xx status
(raise_for_status) and a malformed JSON body — everything the `except`
clause catches — and `responseBody` a parsed body whose "candidates" key
holds the given list (an absent key behaves like the empty list: the falsy
`result.get("candidates")` guard skips the loop either way). -/
inductive GeminiApiOutcome where
  | transportError
  | responseBody (candidates : List GeminiCandidate)
deriving Repr, DecidableEq

/-- The inner part loop of `_call_gemini_api` (views.py lines 370-375): the
first part with a "text" key whose stripped text reaches
MIN_RESPONSE_LENGTH is returned truncated to MAX_RESPONSE_LENGTH; shorter
parts are skipped and the scan continues. -/
def firstLongText : List GeminiPart → Option String
  | [] => none
  | p :: rest =>
    match p.text with
    | some t =>
      let s := pyStrip t
      if MIN_RESPONSE_LENGTH ≤ s.length then some (pyTake MAX_RESPONSE_LENGTH s)
      else firstLongText rest
    | none => firstLongText rest

/-- The candidate loop of `_call_gemini_api` (views.py lines 369-376). -/
def firstFromCandidates : List GeminiCandidate → Option String
  | [] => none
  | c :: rest =>
    match firstLongText c.parts with
    | some t => some t
    | none => firstFromCandidates rest

/-- `AskUnerAPIView._call_gemini_api` (views.py lines 349-379) as a function
of the HTTP exchange's outcome. The Python coroutine never raises to its
caller: every exception path returns None, and so does every validation
failure. -/
def call_gemini_api (r : GeminiApiOutcome) : Option String :=
  match r with
  | .transportError => none
  | .responseBody cands => firstFromCandidates cands

/-- The three documents as held on the view after `_initialize_data`
(views.py lines 53-60): staff_data is a list ([] when the load failed or
the file held a falsy value), guide_data and it_dept_data are objects whose
falsy state ({} — load failure, empty document, or for it_dept_data also a
document without a "department" key, which its strategy rejects up front)
is `none`. -/
structure KnowledgeStore where
  staff_data : List Staff
  guide_data : Option GuideData
  it_dept_data : Option DeptInfo
deriving Repr, DecidableEq

/-- `AskUnerAPIView._initialize_data` (views.py lines 53-60) as a function
of the three `_load_json` results. `_load_json` (lines 45-51) returns the
parsed document or, on any exception (missing file, malformed JSON), None —
modelled by the outer Option. The `or []` / `or {}` defaults replace a None
or falsy load with the empty container. -/
def initData (staffLoad : Option (List Staff))
    (guideLoad : Option (Option GuideData))
    (itLoad : Option (Option DeptInfo)) : KnowledgeStore :=
  { staff_data := staffLoad.getD []
    guide_data := guideLoad.getD none
    it_dept_data := itLoad.getD none }

/-- `AskUnerAPIView._retrieve_info` (views.py lines 382-411): classify, then
try the IT-department strategy (when the question looks IT-related), the
staff strategy (for person queries) and the academic-guide strategy in that
order; the result is (answer, source tag, needs_fallback). -/
def retrieve_info (store : KnowledgeStore) (question : String) :
    Option String × String × Bool :=
  let qa := understand_question question
  let itRelevant := qa.target_department == some "it" ||
    qa.target_program == some "information technology" ||
    qa.keywords.contains "it" ||
    containsSub (pyLower question.data) "information technology"
  match (if itRelevant then search_it_department_info store.it_dept_data qa
      else none) with
  | some ans => (some ans, "IT_DEPT_JSON", false)
  | none =>
    match (if qa.type == "person_query" then
        search_staff_info store.staff_data qa else none) with
    | some ans => (some ans, "STAFF_JSON", false)
    | none =>
      match search_academic_info store.guide_data qa with
      | some ans => (some ans, "GUIDE_JSON", false)
      | none => (none, "NONE", true)

/-- The `choices` of `ChatConversation.source` (models/chat.py lines 13-17):
the values the model declares admissible for the source column. -/
def SOURCE_CHOICES : List String := ["JSON", "Gemini", "Fallback"]

/-- One ChatConversation row as created by the POST handler (views.py lines
472-478); created_at is an automatic timestamp and is omitted. -/
structure ConversationTurn where
  session_id : String
  question : String
  answer : Option String
  source : String
  is_ai_augmented : Bool
deriving Repr, DecidableEq

/-- The body of the 200 response (views.py lines 480-485). -/
structure AskResponse where
  session_id : String
  answer : Option String
  source : String
  is_ai_augmented : Bool
deriving Repr, DecidableEq

/-- What `AskUnerAPIView.post` returns after validation passed: the 200
response body, or the generic 500 error produced by the top-level `except`. -/
inductive PostResult where
  | ok200 (body : AskResponse)
  | err500 (error : String)
deriving Repr, DecidableEq

/-- The generic service-error message (views.py line 490). -/
def SERVICE_ERROR_MESSAGE : String :=
  "Something went wrong while processing your request."

/-- The fixed apology used when the Gemini fallback also fails (views.py
lines 461-465; three adjacent source literals concatenate). -/
def FALLBACK_APOLOGY : String :=
  "I'm still learning about that specific aspect of UENR. For the most accurate and current information, you might want to check the official UENR website or contact the relevant department directly."

/-- Outcome of one runtime step inside the try block: a value, or a raised
exception that the top-level `except` will catch. -/
inductive StepResult (α : Type) where
  | ok (val : α)
  | exc
deriving Repr, DecidableEq

/-- The try block of `AskUnerAPIView.post` (views.py lines 446-492) as a
state machine over the conversation table: `retrieveStep` is
`_retrieve_info`'s outcome, `geminiStep` the outcome of
`asyncio.run(_call_gemini_api(...))` (consulted only when needs_fallback),
`saveStep` the outcome of `ChatConversation.objects.create`. Any raising
step reaches the `except` clause: the generic 500 error is returned and the
table is left unchanged. Otherwise exactly the one new row is appended and
the 200 body mirrors it. Prompt building and the history query only shape
the Gemini prompt and are irrelevant to the returned and persisted fields. -/
def run_ask_pipeline (retrieveStep : StepResult (Option String × String × Bool))
    (geminiStep : StepResult (Option String)) (saveStep : StepResult Unit)
    (db : List ConversationTurn) (sid question : String) :
    PostResult × List ConversationTurn :=
  match retrieveStep with
  | .exc => (.err500 SERVICE_ERROR_MESSAGE, db)
  | .ok (answer0, source0, needs_fallback) =>
    let afterFallback : StepResult (Option String × String × Bool) :=
      if needs_fallback then
        match geminiStep with
        | .exc => .exc
        | .ok (some ai_answer) => .ok (some ai_answer, "Gemini", true)
        | .ok none => .ok (some FALLBACK_APOLOGY, "Fallback", false)
      else .ok (answer0, source0, false)
    match afterFallback with
    | .exc => (.err500 SERVICE_ERROR_MESSAGE, db)
    | .ok (answer, source, is_ai_augmented) =>
      match saveStep with
      | .exc => (.err500 SERVICE_ERROR_MESSAGE, db)
      | .ok _ =>
        let body : AskResponse :=
          { session_id := sid, answer := answer, source := source,
            is_ai_augmented := is_ai_augmented }
        let turn : ConversationTurn :=
          { session_id := sid, question := question, answer := answer,
            source := source, is_ai_augmented := is_ai_augmented }
        (.ok200 body, db ++ [turn])

/-- `AskUnerAPIView.post` after validation, with the real `_retrieve_info`
as the first step. -/
def post_ask (store : KnowledgeStore) (geminiStep : StepResult (Option String))
    (saveStep : StepResult Unit) (db : List ConversationTurn)
    (sid question : String) : PostResult × List ConversationTurn :=
  run_ask_pipeline (.ok (retrieve_info store question)) geminiStep saveStep
    db sid question

theorem pyTake_length (n : Nat) (s : String) :
    (pyTake n s).length = min n s.length := by
  show (s.data.take n).length = min n s.data.length
  exact List.length_take n s.data

theorem firstLongText_bounds (ps : List GeminiPart) (t : String)
    (h : firstLongText ps = some t) :
    MIN_RESPONSE_LENGTH ≤ t.length ∧ t.length ≤ MAX_RESPONSE_LENGTH := by
  induction ps with
  | nil => simp [firstLongText] at h
  | cons p rest ih =>
    rw [firstLongText] at h
    cases hp : p.text with
    | none => rw [hp] at h; exact ih h
    | some t0 =>
      rw [hp] at h
      dsimp only at h
      by_cases hl : MIN_RESPONSE_LENGTH ≤ (pyStrip t0).length
      · rw [if_pos hl] at h
        cases h
        constructor
        · rw [pyTake_length]
          exact le_min (by norm_num [MIN_RESPONSE_LENGTH, MAX_RESPONSE_LENGTH]) hl
        · rw [pyTake_length]
          exact min_le_left _ _
      · rw [if_neg hl] at h
        exact ih h

theorem firstFromCandidates_bounds (cs : List GeminiCandidate) (t : String)
    (h : firstFromCandidates cs = some t) :
    MIN_RESPONSE_LENGTH ≤ t.length ∧ t.length ≤ MAX_RESPONSE_LENGTH := by
  induction cs with
  | nil => simp [firstFromCandidates] at h
  | cons c rest ih =>
    rw [firstFromCandidates] at h
    cases hc : firstLongText c.parts with
    | none => rw [hc] at h; exact ih h
    | some t1 =>
      rw [hc] at h
      cases h
      exact firstLongText_bounds c.parts t hc

theorem firstLongText_all_short (ps : List GeminiPart)
    (h : ∀ p ∈ ps, ∀ t0, p.text = some t0 →
      (pyStrip t0).length < MIN_RESPONSE_LENGTH) :
    firstLongText ps = none := by
  induction ps with
  | nil => rfl
  | cons p rest ih =>
    rw [firstLongText]
    cases hp : p.text with
    | none => exact ih (fun q hq => h q (List.mem_cons_of_mem p hq))
    | some t0 =>
      dsimp only
      rw [if_neg (not_le.mpr (h p (List.mem_cons_self p rest) t0 hp))]
      exact ih (fun q hq => h q (List.mem_cons_of_mem p hq))

/-- C7: The External Fallback Client never raises to its caller (it is a
total function of the HTTP exchange's outcome); it returns no answer on a
transport error, HTTP error status or malformed payload (`transportError`),
on an empty candidate list, and when every extracted text falls short of
the 50-unit minimum after stripping; and any text it does return has
length at least MIN_RESPONSE_LENGTH = 50 and at most
MAX_RESPONSE_LENGTH = 1500 (truncated at 1500). -/
theorem c7_fallback_client_fail_soft :
    (∀ r t, call_gemini_api r = some t →
      MIN_RESPONSE_LENGTH ≤ t.length ∧ t.length ≤ MAX_RESPONSE_LENGTH) ∧
    call_gemini_api .transportError = none ∧
    call_gemini_api (.responseBody []) = none ∧
    (∀ cands, (∀ c ∈ cands, ∀ p ∈ c.parts, ∀ t0, p.text = some t0 →
        (pyStrip t0).length < MIN_RESPONSE_LENGTH) →
      call_gemini_api (.responseBody cands) = none) := by
  refine ⟨?_, rfl, rfl, ?_⟩
  · intro r t h
    cases r with
    | transportError => simp [call_gemini_api] at h
    | responseBody cands => exact firstFromCandidates_bounds cands t h
  · intro cands h
    show firstFromCandidates cands = none
    induction cands with
    | nil => rfl
    | cons c rest ih =>
      rw [firstFromCandidates,
        firstLongText_all_short c.parts (h c (List.mem_cons_self c rest))]
      exact ih (fun c2 hc2 => h c2 (List.mem_cons_of_mem c hc2))

/-- Witness for C7 at a concrete exchange outcome: one candidate with one
76-character part is accepted unchanged and its length lies in the
[50, 1500] window. -/
theorem c7_witness :
    call_gemini_api (.responseBody [⟨[⟨some "The University of Energy and Natural Resources is located in Sunyani, Ghana."⟩]⟩]) =
      some "The University of Energy and Natural Resources is located in Sunyani, Ghana." ∧
    (MIN_RESPONSE_LENGTH ≤
        ("The University of Energy and Natural Resources is located in Sunyani, Ghana." : String).length ∧
      ("The University of Energy and Natural Resources is located in Sunyani, Ghana." : String).length ≤
        MAX_RESPONSE_LENGTH) :=
  ⟨by decide,
    c7_fallback_client_fail_soft.1
      (.responseBody [⟨[⟨some "The University of Energy and Natural Resources is located in Sunyani, Ghana."⟩]⟩])
      "The University of Energy and Natural Resources is located in Sunyani, Ghana."
      (by decide)⟩

/-- C8: A failed load of any one JSON document degrades exactly that
document to its empty container ([] for the staff list, the falsy empty
object for the guide and the department profile), never raises past
`_initialize_data` (the embedding is a total function of the three load
results), and leaves the other two documents exactly as their own loads
produced them: each stored document is a function of its own load alone. -/
theorem c8_load_failure_degrades_locally :
    (∀ gl il, (initData none gl il).staff_data = []) ∧
    (∀ sl il, (initData sl none il).guide_data = none) ∧
    (∀ sl gl, (initData sl gl none).it_dept_data = none) ∧
    (∀ sl gl gl2 il il2,
      (initData sl gl il).staff_data = (initData sl gl2 il2).staff_data) ∧
    (∀ sl sl2 gl il il2,
      (initData sl gl il).guide_data = (initData sl2 gl il2).guide_data) ∧
    (∀ sl sl2 gl gl2 il,
      (initData sl gl il).it_dept_data = (initData sl2 gl2 il).it_dept_data) :=
  ⟨fun _ _ => rfl, fun _ _ => rfl, fun _ _ => rfl,
   fun _ _ _ _ _ => rfl, fun _ _ _ _ _ => rfl, fun _ _ _ _ _ => rfl⟩

/-- C5: For every validated request, the pipeline either completes — and
then exactly one Conversation Turn is appended (also in the
fallback-failure outcome) and the 200 body mirrors that turn — or some
step raises, and then zero turns are appended and the caller receives the
generic 500 error; in particular a raising retrieval or save step yields
the unchanged table plus the generic error, and when every step returns,
exactly one turn is appended. -/
theorem c5_exactly_one_turn_or_none
    (r : StepResult (Option String × String × Bool))
    (g : StepResult (Option String)) (s : StepResult Unit)
    (db : List ConversationTurn) (sid q : String) :
    ((∃ t, (run_ask_pipeline r g s db sid q).2 = db ++ [t] ∧
        (run_ask_pipeline r g s db sid q).1 =
          .ok200 ⟨sid, t.answer, t.source, t.is_ai_augmented⟩ ∧
        t.session_id = sid ∧ t.question = q) ∨
      ((run_ask_pipeline r g s db sid q).2 = db ∧
        (run_ask_pipeline r g s db sid q).1 =
          .err500 SERVICE_ERROR_MESSAGE)) ∧
    (r = .exc ∨ s = .exc →
      (run_ask_pipeline r g s db sid q).2 = db ∧
      (run_ask_pipeline r g s db sid q).1 = .err500 SERVICE_ERROR_MESSAGE) ∧
    (∀ v ans, r = .ok v → g = .ok ans → s = .ok () →
      ∃ t, (run_ask_pipeline r g s db sid q).2 = db ++ [t]) := by
  have main : ∀ r2 : StepResult (Option String × String × Bool),
      ∀ g2 : StepResult (Option String), ∀ s2 : StepResult Unit,
      (∃ t, (run_ask_pipeline r2 g2 s2 db sid q).2 = db ++ [t] ∧
        (run_ask_pipeline r2 g2 s2 db sid q).1 =
          .ok200 ⟨sid, t.answer, t.source, t.is_ai_augmented⟩ ∧
        t.session_id = sid ∧ t.question = q) ∨
      ((run_ask_pipeline r2 g2 s2 db sid q).2 = db ∧
        (run_ask_pipeline r2 g2 s2 db sid q).1 =
          .err500 SERVICE_ERROR_MESSAGE) := by
    intro r2 g2 s2
    cases r2 with
    | exc => exact Or.inr ⟨rfl, rfl⟩
    | ok v =>
      obtain ⟨a0, s0, nf⟩ := v
      cases nf with
      | false =>
        cases s2 with
        | exc => exact Or.inr ⟨rfl, rfl⟩
        | ok u =>
          exact Or.inl ⟨⟨sid, q, a0, s0, false⟩, rfl, rfl, rfl, rfl⟩
      | true =>
        cases g2 with
        | exc => exact Or.inr ⟨rfl, rfl⟩
        | ok ans =>
          cases s2 with
          | exc =>
            cases ans with
            | none => exact Or.inr ⟨rfl, rfl⟩
            | some t0 => exact Or.inr ⟨rfl, rfl⟩
          | ok u =>
            cases ans with
            | none =>
              exact Or.inl ⟨⟨sid, q, some FALLBACK_APOLOGY, "Fallback", false⟩,
                rfl, rfl, rfl, rfl⟩
            | some t0 =>
              exact Or.inl ⟨⟨sid, q, some t0, "Gemini", true⟩,
                rfl, rfl, rfl, rfl⟩
  refine ⟨main r g s, ?_, ?_⟩
  · intro h
    rcases h with h | h
    · subst h; exact ⟨rfl, rfl⟩
    · subst h
      cases r with
      | exc => exact ⟨rfl, rfl⟩
      | ok v =>
        obtain ⟨a0, s0, nf⟩ := v
        cases nf with
        | false => exact ⟨rfl, rfl⟩
        | true =>
          cases g with
          | exc => exact ⟨rfl, rfl⟩
          | ok ans => cases ans with
            | none => exact ⟨rfl, rfl⟩
            | some t0 => exact ⟨rfl, rfl⟩
  · intro v ans hr hg hs
    subst hr; subst hg; subst hs
    rcases main (.ok v) (.ok ans) (.ok ()) with ⟨t, ht, _⟩ | ⟨_, habs⟩
    · exact ⟨t, ht⟩
    · obtain ⟨a0, s0, nf⟩ := v
      cases nf with
      | false => exact absurd habs (by simp [run_ask_pipeline])
      | true => cases ans with
        | none => exact absurd habs (by simp [run_ask_pipeline])
        | some t0 => exact absurd habs (by simp [run_ask_pipeline])

/-- Witness for C5 at a concrete run: retrieval misses, Gemini returns
nothing and the save succeeds — the fallback-failure outcome still appends
exactly one turn. -/
theorem c5_witness :
    ∃ t, (run_ask_pipeline (.ok (none, "NONE", true)) (.ok none) (.ok ())
      [] "sid-1" "hello").2 = ([] : List ConversationTurn) ++ [t] :=
  (c5_exactly_one_turn_or_none (.ok (none, "NONE", true)) (.ok none) (.ok ())
    [] "sid-1" "hello").2.2 (none, "NONE", true) none rfl rfl rfl

/-- C6: When all three retrieval strategies return no answer
(needs_fallback is set by `_retrieve_info`) and the external call yields no
text (transport failure, or every extracted text under the 50-unit
minimum — exactly the cases where `_call_gemini_api` returns None), the
200 response carries the fixed apology, source "Fallback" and
is_ai_augmented false, and so does the persisted turn; when the call
succeeds with text t, the response and the turn carry t, source "Gemini"
and is_ai_augmented true. -/
theorem c6_fallback_outcomes (store : KnowledgeStore) (api : GeminiApiOutcome)
    (db : List ConversationTurn) (sid q : String)
    (hfb : (retrieve_info store q).2.2 = true) :
    (call_gemini_api api = none →
      post_ask store (.ok (call_gemini_api api)) (.ok ()) db sid q =
        (.ok200 ⟨sid, some FALLBACK_APOLOGY, "Fallback", false⟩,
          db ++ [⟨sid, q, some FALLBACK_APOLOGY, "Fallback", false⟩])) ∧
    (∀ t, call_gemini_api api = some t →
      post_ask store (.ok (call_gemini_api api)) (.ok ()) db sid q =
        (.ok200 ⟨sid, some t, "Gemini", true⟩,
          db ++ [⟨sid, q, some t, "Gemini", true⟩])) := by
  rcases hr : retrieve_info store q with ⟨a0, s0, nf⟩
  rw [hr] at hfb
  have hnf : nf = true := hfb
  subst hnf
  constructor
  · intro h
    unfold post_ask
    rw [hr, h]
    rfl
  · intro t h
    unfold post_ask
    rw [hr, h]
    rfl

/-- Witness for C6: with every document empty, "hello" misses all three
strategies, and a transport error at the Gemini call produces the apology
turn with source "Fallback". -/
theorem c6_witness :
    (retrieve_info ⟨[], none, none⟩ "hello").2.2 = true ∧
    call_gemini_api .transportError = none ∧
    post_ask ⟨[], none, none⟩ (.ok (call_gemini_api .transportError)) (.ok ())
        [] "sid-2" "hello" =
      (.ok200 ⟨"sid-2", some FALLBACK_APOLOGY, "Fallback", false⟩,
        [⟨"sid-2", "hello", some FALLBACK_APOLOGY, "Fallback", false⟩]) :=
  ⟨by decide, rfl,
    (c6_fallback_outcomes ⟨[], none, none⟩ .transportError [] "sid-2" "hello"
      (by decide)).1 rfl⟩

/-- A concrete academic guide used for the C2 and C4 evaluations: an About
section and four grade bands. -/
def demoGuide : GuideData :=
  { programmes_offered := []
    grades := [⟨some "A", some "80-100", some "Excellent"⟩,
               ⟨some "B+", some "75-79", some "Very Good"⟩,
               ⟨some "B", some "70-74", some "Good"⟩,
               ⟨some "C", some "60-69", some "Average"⟩]
    steps_to_register := []
    overview := "UENR is a public university in Sunyani, Ghana."
    vision := ""
    mission := ""
    main_campus := ""
    satellite_campuses := [] }

/-- C2 (code bug): a request answered by the academic-guide strategy
completes with a 200 response and persists a turn whose source is
"GUIDE_JSON" — a value outside the choices that
`ChatConversation.source` itself declares; the analogous retrieval paths
produce "IT_DEPT_JSON" and "STAFF_JSON", likewise outside
{JSON, Gemini, Fallback}. -/
theorem c2_source_outside_model_choices :
    post_ask ⟨[], some demoGuide, none⟩ (.ok none) (.ok ()) [] "s1"
        "Tell me about UENR" =
      (.ok200 ⟨"s1", some "UENR is a public university in Sunyani, Ghana. ",
          "GUIDE_JSON", false⟩,
        [⟨"s1", "Tell me about UENR",
          some "UENR is a public university in Sunyani, Ghana. ",
          "GUIDE_JSON", false⟩]) ∧
    SOURCE_CHOICES.contains "GUIDE_JSON" = false := by
  constructor
  · rfl
  · decide

/-- C9: The Question Classifier is a deterministic total function. It is
defined as a Lean function, hence total on all strings and in particular
on those within the 1000-character boundary limit; every run yields one
Intent Descriptor whose `type` is exactly one of the nine intent values,
and equal inputs yield identical descriptors. -/
theorem c9_classifier_total_deterministic (q : String) (hlen : q.length ≤ 1000) :
    (understand_question q).type ∈
      ["general", "person_query", "department_query", "academic_query",
       "admission_query", "grading_query", "financial_query",
       "registration_query", "facility_query"] ∧
    ∀ q2 : String, q2 = q → understand_question q2 = understand_question q := by
  constructor
  · unfold understand_question
    by_cases h1 : anyKw (pyLower q.data) person_keywords = true
    · simp [h1]
    by_cases h2 : anyKw (pyLower q.data) ["department", "school", "faculty"] = true
    · simp [h1, h2]
    by_cases h3 : anyKw (pyLower q.data)
      ["course", "program", "degree", "study", "bsc", "diploma"] = true
    · simp [h1, h2, h3]
    by_cases h4 : anyKw (pyLower q.data) ["admission", "apply", "requirement"] = true
    · simp [h1, h2, h3, h4]
    by_cases h5 : anyKw (pyLower q.data) ["grade", "gpa", "score", "mark"] = true
    · simp [h1, h2, h3, h4, h5]
    by_cases h6 : anyKw (pyLower q.data) ["fee", "cost", "payment", "tuition"] = true
    · simp [h1, h2, h3, h4, h5, h6]
    by_cases h7 : anyKw (pyLower q.data) ["register", "registration"] = true
    · simp [h1, h2, h3, h4, h5, h6, h7]
    by_cases h8 : anyKw (pyLower q.data) ["library", "hostel", "campus", "facility"] = true
    · simp [h1, h2, h3, h4, h5, h6, h7, h8]
    · simp [h1, h2, h3, h4, h5, h6, h7, h8]
  · intro q2 hq; rw [hq]

/-- Witness for C9 at the question "hello". -/
theorem c9_witness :
    ("hello" : String).length ≤ 1000 ∧
    ((understand_question "hello").type ∈
      ["general", "person_query", "department_query", "academic_query",
       "admission_query", "grading_query", "financial_query",
       "registration_query", "facility_query"] ∧
    ∀ q2 : String, q2 = "hello" →
      understand_question q2 = understand_question "hello") :=
  ⟨by decide, c9_classifier_total_deterministic "hello" (by decide)⟩

/-- C10: The person-query test is substring containment of any person
keyword anywhere in the whole lowercased question — including inside
longer words — and it precedes every department, academic and topic rule,
so any question containing one is typed person_query. -/
theorem c10_person_query_by_substring (q : String)
    (h : ∃ kw ∈ person_keywords, containsSub (pyLower q.data) kw = true) :
    (understand_question q).type = "person_query" := by
  have hany : anyKw (pyLower q.data) person_keywords = true := by
    rcases h with ⟨kw, hmem, hsub⟩
    exact List.any_eq_true.mpr ⟨kw, hmem, hsub⟩
  unfold understand_question
  simp only [hany, if_true]
  rfl

/-- Witness for C10: "What is the address of UENR?" contains "dr" inside
the word "address" and is therefore typed person_query, although it asks
about no person. -/
theorem c10_witness :
    (∃ kw ∈ person_keywords,
      containsSub (pyLower ("What is the address of UENR?" : String).data) kw = true) ∧
    (understand_question "What is the address of UENR?").type = "person_query" :=
  ⟨⟨"dr", by decide, by decide⟩,
    c10_person_query_by_substring "What is the address of UENR?"
      ⟨"dr", by decide, by decide⟩⟩

theorem tryMatchB_lengths (s : List Char) (g1 g2 : List Char)
    (h : tryMatchB s = some (g1, g2)) : 2 ≤ g1.length ∧ 2 ≤ g2.length := by
  unfold tryMatchB at h
  by_cases h1 : (s.takeWhile isAlphaAscii).length < 2
  · rw [if_pos h1] at h; exact absurd h (by simp)
  · rw [if_neg h1] at h
    by_cases h2 : (((s.dropWhile isAlphaAscii).takeWhile isSpacePy).isEmpty : Bool) = true
    · rw [if_pos h2] at h; exact absurd h (by simp)
    · rw [if_neg h2] at h
      by_cases h3 : (((s.dropWhile isAlphaAscii).dropWhile isSpacePy).takeWhile
          isAlphaAscii).length < 2
      · rw [if_pos h3] at h; exact absurd h (by simp)
      · rw [if_neg h3] at h
        cases h
        exact ⟨Nat.le_of_not_lt h1, Nat.le_of_not_lt h3⟩

theorem matchB_lengths (s : List Char) (g1 g2 : List Char)
    (h : matchB s = some (g1, g2)) : 2 ≤ g1.length ∧ 2 ≤ g2.length := by
  induction s with
  | nil => simp [matchB] at h
  | cons c cs ih =>
    rw [matchB] at h
    cases htry : tryMatchB (c :: cs) with
    | some r =>
      rw [htry] at h
      obtain ⟨x, y⟩ := r
      cases h
      exact tryMatchB_lengths (c :: cs) g1 g2 htry
    | none => rw [htry] at h; exact ih h

theorem pyTitleAux_ne_nil (b : Bool) (l : List Char) (h : l ≠ []) :
    pyTitleAux b l ≠ [] := by
  cases l with
  | nil => exact absurd rfl h
  | cons c cs => unfold pyTitleAux; split <;> simp

theorem mk_ne_empty (l : List Char) (h : l ≠ []) : String.mk l ≠ "" := by
  intro hc
  exact h (congrArg String.data hc)

/-- Counterexample to C1 as stated: on the spec's own example question the
classifier does type it person_query, but target_person comes out as
"Who Is", not "Dean" — the first pattern does not win and role inference is
never reached, because the second pattern is compiled with re.IGNORECASE
(so "Who is" matches it) and its assignment overwrites the first
pattern's. -/
theorem c1_counterexample :
    (understand_question "Who is the Dean of the School of Engineering?").type
      = "person_query" ∧
    (understand_question "Who is the Dean of the School of Engineering?").target_person
      = some "Who Is" ∧
    (some "Who Is" : Option String) ≠ some "Dean" :=
  ⟨rfl, rfl, by decide⟩

/-- C1 as amended: both name patterns are applied case-insensitively and
each matching pattern overwrites target_person (the `break` leaves only the
inner loop), so whenever the second pattern — two consecutive word-tokens
of length ≥ 2, of any capitalization — matches anywhere, its first match,
title-cased, is the final target_person, regardless of the first pattern;
role inference applies only when neither pattern matches anywhere. On the
example question the leftmost such match is "Who is", so
target_person = "Who Is". -/
theorem c1_second_pattern_overrides (q : String) (g1 g2 : List Char)
    (hperson : anyKw (pyLower q.data) person_keywords = true)
    (hb : matchB q.data = some (g1, g2)) :
    (understand_question q).type = "person_query" ∧
    (understand_question q).target_person =
      some (String.mk (pyTitle (g1 ++ ' ' :: g2))) := by
  have hne : pyTitle (g1 ++ ' ' :: g2) ≠ [] :=
    pyTitleAux_ne_nil false _ (by simp)
  have htruthy : optTruthy (some (String.mk (pyTitle (g1 ++ ' ' :: g2)))) = true := by
    show (String.mk (pyTitle (g1 ++ ' ' :: g2)) != "") = true
    exact bne_iff_ne.mpr (mk_ne_empty _ hne)
  unfold understand_question
  simp only [hperson, if_true]
  refine ⟨rfl, ?_⟩
  show personTarget q.data (pyLower q.data) = _
  unfold personTarget extractName
  rw [hb]
  simp only [htruthy, if_true]

/-- Witness for C1's amended theorem at the example question: the second
pattern's leftmost match is ("Who", "is") and the classifier's
target_person is its title-cased join. -/
theorem c1_witness :
    anyKw (pyLower ("Who is the Dean of the School of Engineering?" : String).data)
        person_keywords = true ∧
    matchB ("Who is the Dean of the School of Engineering?" : String).data =
      some (['W','h','o'], ['i','s']) ∧
    ((understand_question "Who is the Dean of the School of Engineering?").type
        = "person_query" ∧
      (understand_question "Who is the Dean of the School of Engineering?").target_person
        = some (String.mk (pyTitle (['W','h','o'] ++ ' ' :: ['i','s'])))) :=
  ⟨by decide, by decide,
    c1_second_pattern_overrides "Who is the Dean of the School of Engineering?"
      ['W','h','o'] ['i','s'] (by decide) (by decide)⟩

/-- Keep the earlier element unless the later one scores strictly higher:
the selection rule "first maximal element wins". -/
def bestOf : Option (Staff × Nat) → Staff × Nat → Option (Staff × Nat)
  | none, y => some y
  | some b, y => if y.2 > b.2 then some y else some b

/-- The first maximal-score element of the list: the earliest element whose
score no later element strictly exceeds. -/
def firstMax (l : List (Staff × Nat)) : Option (Staff × Nat) :=
  l.foldl bestOf none

theorem insertDesc_headOpt (x : Staff × Nat) (acc : List (Staff × Nat)) :
    (insertDesc x acc).head? = bestOf acc.head? x := by
  cases acc with
  | nil => rfl
  | cons y ys =>
    rw [insertDesc]
    by_cases hc : x.2 > y.2
    · rw [if_pos hc]
      simp [bestOf, hc]
    · rw [if_neg hc]
      simp [bestOf, hc]

theorem foldl_insertDesc_headOpt (l acc : List (Staff × Nat)) :
    (l.foldl (fun a x => insertDesc x a) acc).head? = l.foldl bestOf acc.head? := by
  induction l generalizing acc with
  | nil => rfl
  | cons x xs ih =>
    rw [List.foldl_cons, List.foldl_cons, ih, insertDesc_headOpt]

/-- The head of the stable descending sort is the first maximal-score
element of the unsorted list. -/
theorem sortDesc_headOpt (l : List (Staff × Nat)) :
    (sortDesc l).head? = firstMax l :=
  foldl_insertDesc_headOpt l []

/-- A staff record whose keyword fields score against "lecturer" but whose
name does not contain "xyz". -/
def staffJohn : Staff :=
  ⟨some "John Doe", some "Senior Lecturer", some "lecturer",
    some "Computer Science", none, none, []⟩

/-- A second record tying staffJohn's score on the keyword "lecturer". -/
def staffAma : Staff :=
  ⟨some "Ama Mensah", some "Lecturer", none, none, none, none, []⟩

/-- An analysis with target_person set to a name no record contains. -/
def analysisTargetXyz : Analysis :=
  ⟨"person_query", some "Xyz", none, none, none, ["lecturer"], true⟩

/-- The same analysis without a target_person. -/
def analysisNoTarget : Analysis :=
  ⟨"person_query", none, none, none, none, ["lecturer"], true⟩

/-- Counterexample to C3 as stated: target_person is set and no staff name
contains it, so under the claim the result would be determined solely by
the (empty-handed) name scan and no keyword scoring would run — but the
code falls through to the scoring path and returns the keyword-scored
record. -/
theorem c3_counterexample :
    optTruthy analysisTargetXyz.target_person = true ∧
    findStaffByName (analysisTargetXyz.target_person.getD "") [staffJohn] = none ∧
    search_staff_info [staffJohn] analysisTargetXyz =
      some "John Doe is the Senior Lecturer at UENR. Their role involves lecturer. They work in the Computer Science. " :=
  ⟨by decide, by decide, by decide⟩

/-- C3 as amended: with a non-empty staff list, when target_person is set
and the linear name scan finds a record, that first match is formatted with
no scoring; but the keyword-scoring path runs not only when target_person
is unset — it also runs when the name scan found nothing — and it keeps the
records with score > 0 and formats the maximum-score record with ties
broken by original order (the first maximal element, the head of the
stable descending sort). -/
theorem c3_staff_selection (staff_data : List Staff) (a : Analysis)
    (hne : staff_data.isEmpty = false) :
    (∀ st, optTruthy a.target_person = true →
      findStaffByName (a.target_person.getD "") staff_data = some st →
      search_staff_info staff_data a = format_staff_response st) ∧
    ((optTruthy a.target_person = false ∨
        findStaffByName (a.target_person.getD "") staff_data = none) →
      search_staff_info staff_data a =
        (firstMax ((staff_data.map
            (fun st => (st, staff_match_score a.keywords st))).filter
            (fun p => decide (0 < p.2)))).bind
          (fun p => format_staff_response p.1)) := by
  have hmatch : ∀ m : List (Staff × Nat),
      (match sortDesc m with
       | [] => (none : Option String)
       | (st, _) :: _ => format_staff_response st) =
      (firstMax m).bind (fun p => format_staff_response p.1) := by
    intro m
    rw [← sortDesc_headOpt]
    cases hs : sortDesc m with
    | nil => rfl
    | cons p ps => obtain ⟨st, n⟩ := p; rfl
  constructor
  · intro st htr hfind
    unfold search_staff_info
    rw [if_neg (by simp [hne])]
    simp only [htr, if_true, hfind]
  · intro h
    unfold search_staff_info
    rw [if_neg (by simp [hne])]
    have hinner : (if optTruthy a.target_person = true then
        findStaffByName (a.target_person.getD "") staff_data else none) = none := by
      rcases h with h | h
      · rw [h]; rfl
      · by_cases ht : optTruthy a.target_person = true
        · rw [if_pos ht]; exact h
        · rw [if_neg ht]
    rw [hinner]
    exact hmatch _

/-- Witness for C3's amended theorem: no target_person, two records tying
at score 1 on the keyword "lecturer" — the scoring path returns the first
maximal element. -/
theorem c3_witness :
    ([staffJohn, staffAma].isEmpty = false) ∧
    optTruthy analysisNoTarget.target_person = false ∧
    search_staff_info [staffJohn, staffAma] analysisNoTarget =
      (firstMax (([staffJohn, staffAma].map
          (fun st => (st, staff_match_score analysisNoTarget.keywords st))).filter
          (fun p => decide (0 < p.2)))).bind
        (fun p => format_staff_response p.1) :=
  ⟨by decide, by decide,
    (c3_staff_selection [staffJohn, staffAma] analysisNoTarget (by decide)).2
      (Or.inl (by decide))⟩

/-- Counterexample to C4 as stated: the question "What is the grading
system at UENR?" is not classified grading_query — no grading keyword
("grade", "gpa", "score", "mark") is a substring of its lowered text, since
"grading" does not contain "grade" — so it falls through to type general,
and on a guide holding both an About section and grade bands the
academic-guide strategy answers with the About text, not with the
grade-band string. -/
theorem c4_counterexample :
    (understand_question "What is the grading system at UENR?").type = "general" ∧
    (understand_question "What is the grading system at UENR?").type ≠ "grading_query" ∧
    search_academic_info (some demoGuide)
        (understand_question "What is the grading system at UENR?") =
      some "UENR is a public university in Sunyani, Ghana. " ∧
    (some "UENR is a public university in Sunyani, Ghana. " : Option String) ≠
      some ("UENR uses the following grading system: " ++
        String.intercalate "; " ((demoGuide.grades.map fmtGrade).take 3) ++ ".") :=
  ⟨rfl, by decide, by decide, by decide⟩

/-- C4 as amended: for any question analysis that did come out
grading_query (the example question does not; e.g. "What is the grade
system at UENR?" does) and a guide with a non-empty Grades list, the
academic-guide strategy returns the fixed lead-in plus the semicolon-join
of the first 3 grade-band descriptions "<Grade> (<Mark>) - <Interpretation>"
in the guide's original order, plus a final period. -/
theorem c4_grading_query_format (g : GuideData) (a : Analysis)
    (ht : a.type = "grading_query") (hg : g.grades ≠ []) :
    search_academic_info (some g) a =
      some ("UENR uses the following grading system: " ++
        String.intercalate "; " ((g.grades.map fmtGrade).take 3) ++ ".") := by
  unfold search_academic_info
  rw [ht]
  cases hgr : g.grades with
  | nil => exact absurd hgr hg
  | cons gr rest => simp [hgr]

/-- Witness for C4's amended theorem: "What is the grade system at UENR?"
classifies as grading_query and the demo guide's first three bands come
back semicolon-joined. -/
theorem c4_witness :
    (understand_question "What is the grade system at UENR?").type = "grading_query" ∧
    demoGuide.grades ≠ [] ∧
    search_academic_info (some demoGuide)
        (understand_question "What is the grade system at UENR?") =
      some ("UENR uses the following grading system: " ++
        String.intercalate "; " ((demoGuide.grades.map fmtGrade).take 3) ++ ".") :=
  ⟨by decide, by decide,
    c4_grading_query_format demoGuide
      (understand_question "What is the grade system at UENR?")
      (by decide) (by decide)⟩
